import Mathlib

/-!
Verification of the Wear-Fit-Check studio's outfit-engine state machine.

The definitions below are a shallow embedding of the React state handlers in
`src/App.tsx`, the wardrobe-panel guard in the `WardrobePanel` component, and
the gateway response handler `handleApiResponse` in
`src/services/geminiService.ts`.  React `useState` state is modelled as an
explicit record `AppState`; each event handler becomes a pure function from
the pre-state (plus the outcome of any generation-gateway call, supplied as a
`GenResult` oracle) to the post-state.  Handlers that may issue a
generation-gateway request additionally return a `Bool` that is `true`
exactly when the request was issued.
-/

namespace WearFit

/-- JavaScript truthiness of an optional string: `undefined`/`null` and the
empty string are falsy, every other string is truthy. -/
def jsTruthy : Option String → Bool
  | none => false
  | some s => s ≠ ""

/-- `WardrobeItem` from `types.ts` as used throughout `App.tsx`. -/
structure WardrobeItem where
  id : String
  name : String
  url : String
  category : String
deriving Repr, DecidableEq

/-- `OutfitLayer` from `types.ts`: an optional garment plus an
insertion-ordered map from pose-instruction string to generated image URL
(a JS object literal, modelled as an association list with unique keys kept
in insertion order). -/
structure OutfitLayer where
  garment : Option WardrobeItem
  poseImages : List (String × String)
deriving Repr, DecidableEq

/-- The fixed pose-instruction list `POSE_INSTRUCTIONS` of `App.tsx`. -/
def POSE_INSTRUCTIONS : List String :=
  ["ยืนตัวตรง มือวางข้างลำตัว",
   "หันข้างเล็กน้อย 45 องศา",
   "หันข้างเต็มตัว",
   "กระโดดในอากาศ ท่าแอคชั่น",
   "กำลังเดินเข้าหาหน้าจอ",
   "พิงกำแพงแบบเท่ๆ"]

/-- `POSE_INSTRUCTIONS[i]` in JS: out-of-range indexing yields `undefined`,
which is coerced to the string "undefined" when used as an object key. -/
def poseInstructionAt (i : Nat) : String :=
  (POSE_INSTRUCTIONS[i]?).getD "undefined"

/-- Key lookup in a JS object modelled as an association list
(`layer.poseImages[key]`). -/
def lookupPose (m : List (String × String)) (k : String) : Option String :=
  (m.find? (fun p => p.1 = k)).map (fun p => p.2)

/-- The object spread `\x7b ...poseImages, [key]: v \x7d`: an existing key
keeps its position and gets the new value, a fresh key is appended at the
end (JS property insertion order). -/
def setPose (m : List (String × String)) (k v : String) : List (String × String) :=
  if m.any (fun p => p.1 = k) then
    m.map (fun p => if p.1 = k then (k, v) else p)
  else m ++ [(k, v)]

/-- `Object.values(layer.poseImages)[0]`: the first-inserted image of a
layer, `undefined` on an empty map. -/
def firstPoseImage (m : List (String × String)) : Option String :=
  m.head?.map (fun p => p.2)

/-- The default wardrobe catalog of `src/wardrobe.ts`. -/
def defaultWardrobe : List WardrobeItem :=
  [{ id := "gemini-sweat", name := "เสื้อสเวตเตอร์ Gemini",
     url := "https://raw.githubusercontent.com/ammaarreshi/app-images/refs/heads/main/gemini-sweat-2.png",
     category := "clothing" },
   { id := "gemini-tee", name := "เสื้อยืด Gemini",
     url := "https://raw.githubusercontent.com/ammaarreshi/app-images/refs/heads/main/Gemini-tee.png",
     category := "clothing" },
   { id := "black-cap", name := "หมวกแก๊ปสีดำ",
     url := "https://images.unsplash.com/photo-1588850561407-ed78c282e1c7?q=80&w=400&auto=format&fit=crop",
     category := "accessory" },
   { id := "sunglasses", name := "แว่นกันแดดทรงเท่",
     url := "https://images.unsplash.com/photo-1572635196237-14b3f281503f?q=80&w=400&auto=format&fit=crop",
     category := "accessory" },
   { id := "leather-bag", name := "กระเป๋าถือหนัง",
     url := "https://images.unsplash.com/photo-1584917865442-de89df76afd3?q=80&w=400&auto=format&fit=crop",
     category := "accessory" }]

/-- The `useState` slots of the `App` component that the engine operations
read or write (presentation-only slots such as `isSheetCollapsed` and the
saved-outfit list are omitted: no claim mentions them and no engine
operation reads them). -/
structure AppState where
  modelImageUrl : Option String
  outfitHistory : List OutfitLayer
  currentOutfitIndex : Nat
  isLoading : Bool
  loadingMessage : String
  error : Option String
  currentPoseIndex : Nat
  wardrobe : List WardrobeItem
  videoUrls : List String
  isVideoLoading : Bool
deriving Repr, DecidableEq

/-- The initial `useState` values of `App`. -/
def initialState : AppState :=
  { modelImageUrl := none
    outfitHistory := []
    currentOutfitIndex := 0
    isLoading := false
    loadingMessage := ""
    error := none
    currentPoseIndex := 0
    wardrobe := defaultWardrobe
    videoUrls := []
    isVideoLoading := false }

/-- Outcome of one generation-gateway call, supplied to the handlers as an
oracle: `ok url` models the promise resolving with an image/video URL,
`fail msg` models it rejecting (with `msg` the user-facing message the
handler stores). -/
inductive GenResult where
  | ok (url : String)
  | fail (msg : String)
deriving Repr, DecidableEq

/-- Derived view `displayImageUrl` of `App.tsx`. -/
def displayImageUrl (s : AppState) : Option String :=
  if s.outfitHistory.isEmpty then s.modelImageUrl
  else
    match s.outfitHistory[s.currentOutfitIndex]? with
    | none => s.modelImageUrl
    | some currentLayer =>
      match lookupPose currentLayer.poseImages (poseInstructionAt s.currentPoseIndex) with
      | some img => some img
      | none => firstPoseImage currentLayer.poseImages

/-- Derived view `activeOutfitLayers`: the prefix `history[0..cursor]`. -/
def activeOutfitLayers (s : AppState) : List OutfitLayer :=
  s.outfitHistory.take (s.currentOutfitIndex + 1)

/-- Derived view `activeGarmentIds`:
`activeOutfitLayers.map(l => l.garment?.id).filter(Boolean)`, so `undefined`
ids (base layer) and empty-string ids are dropped. -/
def activeGarmentIds (s : AppState) : List String :=
  ((activeOutfitLayers s).filterMap (fun l => l.garment.map (fun g => g.id))).filter
    (fun i => i ≠ "")

/-- `handleModelFinalized` of `App.tsx`: install the finalized model image
as the single base layer and reset the cursor.  (It does not touch
`currentPoseIndex` and has no guard of its own.) -/
def handleModelFinalized (s : AppState) (url : String) : AppState :=
  { s with
      modelImageUrl := some url
      outfitHistory := [{ garment := none, poseImages := [(poseInstructionAt 0, url)] }]
      currentOutfitIndex := 0 }

/-- `handleStartOver` of `App.tsx`. -/
def handleStartOver (s : AppState) : AppState :=
  { s with
      modelImageUrl := none
      outfitHistory := []
      currentOutfitIndex := 0
      isLoading := false
      loadingMessage := ""
      error := none
      currentPoseIndex := 0
      wardrobe := defaultWardrobe
      videoUrls := [] }

/-- The redo fast-path test of `handleGarmentSelect`: the layer immediately
after the cursor exists and holds a garment with the selected item's id. -/
def fastPathHit (s : AppState) (item : WardrobeItem) : Bool :=
  match s.outfitHistory[s.currentOutfitIndex + 1]? with
  | some l =>
    match l.garment with
    | some g => g.id = item.id
    | none => false
  | none => false

/-- `handleGarmentSelect` of `App.tsx`.  The returned `Bool` is `true` iff
the handler issued a `generateVirtualTryOnImage` gateway call; `gen` is that
call's outcome (ignored when no call is made). -/
def handleGarmentSelect (s : AppState) (item : WardrobeItem) (gen : GenResult) :
    AppState × Bool :=
  if !(jsTruthy (displayImageUrl s)) || s.isLoading then (s, false)
  else if fastPathHit s item then
    ({ s with currentOutfitIndex := s.currentOutfitIndex + 1, currentPoseIndex := 0 }, false)
  else
    match gen with
    | GenResult.ok newImageUrl =>
      let newLayer : OutfitLayer :=
        { garment := some item
          poseImages := [(poseInstructionAt s.currentPoseIndex, newImageUrl)] }
      ({ s with
          error := none
          outfitHistory := s.outfitHistory.take (s.currentOutfitIndex + 1) ++ [newLayer]
          currentOutfitIndex := s.currentOutfitIndex + 1
          wardrobe :=
            if s.wardrobe.any (fun w => w.id = item.id) then s.wardrobe
            else s.wardrobe ++ [item]
          videoUrls := []
          isLoading := false
          loadingMessage := "" }, true)
    | GenResult.fail msg =>
      ({ s with error := some msg, isLoading := false, loadingMessage := "" }, true)

/-- The state produced by the slow (generation) path of
`handleGarmentSelect` on success: the redo tail is truncated, the new layer
is appended, the cursor advances, the wardrobe is deduplicated by id, and
the video list is cleared.  (Spelled out so proofs can name it; it is
exactly the success branch of `handleGarmentSelect`.) -/
def slowSuccessState (s : AppState) (item : WardrobeItem) (url : String) : AppState :=
  { s with
      error := none
      outfitHistory := s.outfitHistory.take (s.currentOutfitIndex + 1) ++
        [{ garment := some item
           poseImages := [(poseInstructionAt s.currentPoseIndex, url)] }]
      currentOutfitIndex := s.currentOutfitIndex + 1
      wardrobe :=
        if s.wardrobe.any (fun w => w.id = item.id) then s.wardrobe
        else s.wardrobe ++ [item]
      videoUrls := []
      isLoading := false
      loadingMessage := "" }

/-- `handleGarmentClick` of the `WardrobePanel` component, the only way the
UI reaches `handleGarmentSelect` for a catalog item.  Its `isLoading` prop
is `isLoading || isVideoLoading` in `App.tsx`, and it rejects items whose id
is already among the active garment ids. -/
def handleGarmentClick (s : AppState) (item : WardrobeItem) (gen : GenResult) :
    AppState × Bool :=
  if (s.isLoading || s.isVideoLoading) || (activeGarmentIds s).contains item.id then
    (s, false)
  else handleGarmentSelect s item gen

/-- `handleRemoveLastGarment` of `App.tsx`. -/
def handleRemoveLastGarment (s : AppState) : AppState :=
  if s.currentOutfitIndex > 0 then
    { s with
        currentOutfitIndex := s.currentOutfitIndex - 1
        currentPoseIndex := 0
        videoUrls := [] }
  else s

/-- `handlePoseSelect` of `App.tsx`.  The returned `Bool` is `true` iff the
handler issued a `generatePoseVariation` gateway call; `gen` is that call's
outcome.  (When the layer under the cursor does not exist the JS code would
dereference `undefined` and crash before changing any state; that branch is
modelled as leaving the state unchanged and is unreachable while the cursor
stays in range.) -/
def handlePoseSelect (s : AppState) (newIndex : Nat) (gen : GenResult) :
    AppState × Bool :=
  if s.isLoading || s.outfitHistory.isEmpty || newIndex == s.currentPoseIndex then (s, false)
  else
    let poseInstruction := poseInstructionAt newIndex
    match s.outfitHistory[s.currentOutfitIndex]? with
    | none => (s, false)
    | some currentLayer =>
      if jsTruthy (lookupPose currentLayer.poseImages poseInstruction) then
        ({ s with currentPoseIndex := newIndex }, false)
      else if !(jsTruthy (firstPoseImage currentLayer.poseImages)) then (s, false)
      else
        match gen with
        | GenResult.ok newImageUrl =>
          let updatedLayer : OutfitLayer :=
            { currentLayer with
                poseImages := setPose currentLayer.poseImages poseInstruction newImageUrl }
          ({ s with
              error := none
              currentPoseIndex := newIndex
              outfitHistory := s.outfitHistory.set s.currentOutfitIndex updatedLayer
              videoUrls := []
              isLoading := false
              loadingMessage := "" }, true)
        | GenResult.fail msg =>
          ({ s with error := some msg, isLoading := false, loadingMessage := "" }, true)

/-- `handleGenerateVideo` of `App.tsx`; `gen` is the outcome of the
`generateVideo` gateway call.  On success the new video URL is appended and
`slice(-2)` keeps only the last two entries. -/
def handleGenerateVideo (s : AppState) (gen : GenResult) : AppState :=
  if !(jsTruthy (displayImageUrl s)) || s.isVideoLoading then s
  else
    match gen with
    | GenResult.ok videoUrl =>
      let l := s.videoUrls ++ [videoUrl]
      { s with
          error := none
          videoUrls := l.drop (l.length - 2)
          isVideoLoading := false
          loadingMessage := "" }
    | GenResult.fail msg =>
      { s with error := some msg, isVideoLoading := false, loadingMessage := "" }

/-! ## Reachability predicates -/

/-- The history/cursor invariant: the cursor addresses an existing layer and
the first layer is the garment-free base layer. -/
def histInv (s : AppState) : Prop :=
  s.currentOutfitIndex < s.outfitHistory.length ∧
  (s.outfitHistory.head?).map OutfitLayer.garment = some none

/-- States reachable from the freshly mounted app by finalizing a model and
then performing any sequence of engine operations (garment application via
the engine or via the wardrobe panel, undo, pose selection, video
generation, re-finalization), with arbitrary gateway outcomes. -/
inductive Reachable : AppState → Prop where
  | init (url : String) : Reachable (handleModelFinalized initialState url)
  | finalize (s : AppState) (url : String) :
      Reachable s → Reachable (handleModelFinalized s url)
  | garment (s : AppState) (item : WardrobeItem) (gen : GenResult) :
      Reachable s → Reachable (handleGarmentSelect s item gen).1
  | click (s : AppState) (item : WardrobeItem) (gen : GenResult) :
      Reachable s → Reachable (handleGarmentClick s item gen).1
  | remove (s : AppState) :
      Reachable s → Reachable (handleRemoveLastGarment s)
  | pose (s : AppState) (newIndex : Nat) (gen : GenResult) :
      Reachable s → Reachable (handlePoseSelect s newIndex gen).1
  | video (s : AppState) (gen : GenResult) :
      Reachable s → Reachable (handleGenerateVideo s gen)

/-- Full app-level reachability, starting from the mounted app's initial
state.  `handleModelFinalized` is only ever invoked from the start screen,
which the app renders exactly while `modelImageUrl` is falsy, and whose
finalize button exists only once a (non-empty) generated model URL is
present — hence the `finalize` constructor's side conditions.  `startOver`
is the reset button. -/
inductive AppReachable : AppState → Prop where
  | start : AppReachable initialState
  | finalize (s : AppState) (url : String) :
      AppReachable s → url ≠ "" → jsTruthy s.modelImageUrl = false →
      AppReachable (handleModelFinalized s url)
  | startOver (s : AppState) :
      AppReachable s → AppReachable (handleStartOver s)
  | garment (s : AppState) (item : WardrobeItem) (gen : GenResult) :
      AppReachable s → AppReachable (handleGarmentSelect s item gen).1
  | click (s : AppState) (item : WardrobeItem) (gen : GenResult) :
      AppReachable s → AppReachable (handleGarmentClick s item gen).1
  | remove (s : AppState) :
      AppReachable s → AppReachable (handleRemoveLastGarment s)
  | pose (s : AppState) (newIndex : Nat) (gen : GenResult) :
      AppReachable s → AppReachable (handlePoseSelect s newIndex gen).1
  | video (s : AppState) (gen : GenResult) :
      AppReachable s → AppReachable (handleGenerateVideo s gen)

/-! ## The generation gateway's response handling
(`handleApiResponse` in `src/services/geminiService.ts`) -/

/-- `part.inlineData` of a Gemini response part. -/
structure InlineData where
  mimeType : String
  data : String
deriving Repr, DecidableEq

/-- One element of `candidate.content.parts`. -/
structure ResponsePart where
  inlineData : Option InlineData
deriving Repr, DecidableEq

/-- `candidate.content`. -/
structure ResponseContent where
  parts : Option (List ResponsePart)
deriving Repr, DecidableEq

/-- One entry of `response.candidates`. -/
structure Candidate where
  content : Option ResponseContent
  finishReason : Option String
deriving Repr, DecidableEq

/-- The slice of `GenerateContentResponse` that `handleApiResponse` reads
(`response.text` is the SDK's aggregated text accessor, modelled as a
field). -/
structure GenerateContentResponse where
  candidates : Option (List Candidate)
  text : Option String
deriving Repr, DecidableEq

/-- JS `String.prototype.trim()`: strip leading and trailing whitespace
(modelled over the character list so that it evaluates inside proofs). -/
def jsTrim (s : String) : String :=
  String.mk (((s.data.dropWhile Char.isWhitespace).reverse.dropWhile
    Char.isWhitespace).reverse)

/-- `candidate.content?.parts ?? []`. -/
def candidateParts (c : Candidate) : List ResponsePart :=
  (c.content.bind ResponseContent.parts).getD []

/-- The first part carrying `inlineData`, scanning candidates and their
parts in order — the nested `for` loops of `handleApiResponse`. -/
def firstInlineData (r : GenerateContentResponse) : Option InlineData :=
  ((r.candidates.getD []).flatMap candidateParts).findSome?
    (fun p => p.inlineData)

/-- `response.candidates?.[0]?.finishReason`. -/
def firstFinishReason (r : GenerateContentResponse) : Option String :=
  ((r.candidates.getD []).head?).bind Candidate.finishReason

/-- The data URL built from inline image data. -/
def dataUrlOf (d : InlineData) : String :=
  "data:" ++ d.mimeType ++ ";base64," ++ d.data

/-- `handleApiResponse` of `src/services/geminiService.ts`, with `throw`
modelled as `Except.error`. -/
def handleApiResponse (r : GenerateContentResponse) : Except String String :=
  match firstInlineData r with
  | some d => Except.ok (dataUrlOf d)
  | none =>
    if jsTruthy (firstFinishReason r) && firstFinishReason r != some "STOP" then
      Except.error ("Image generation stopped. Reason: " ++ (firstFinishReason r).getD "")
    else
      let textFeedback := jsTrim (r.text.getD "")
      Except.error (if textFeedback = "" then "AI did not return an image." else textFeedback)

/-- Spec-side phrasing: some candidate part carries inline image data. -/
def hasInlineImage (r : GenerateContentResponse) : Prop :=
  ∃ c ∈ r.candidates.getD [], ∃ p ∈ candidateParts c, p.inlineData.isSome = true

/-! ## Concrete fixtures used by witnesses and counterexamples -/

/-- A concrete clothing item. -/
def gShirt : WardrobeItem :=
  { id := "g1", name := "shirt", url := "u1", category := "clothing" }

/-- A second, distinct concrete item. -/
def gHat : WardrobeItem :=
  { id := "g2", name := "hat", url := "u2", category := "accessory" }

/-- The state right after finalizing the model image "m0". -/
def exBase : AppState := handleModelFinalized initialState "m0"

/-- The state after additionally applying `gShirt` successfully
(generated image "i1"): cursor 1, history of length 2. -/
def exOne : AppState := (handleGarmentSelect exBase gShirt (GenResult.ok "i1")).1

/-- The state after finalizing "m0" and generating two videos. -/
def exVid2 : AppState :=
  handleGenerateVideo (handleGenerateVideo exBase (GenResult.ok "v1"))
    (GenResult.ok "v2")

/-- `exBase` after a successful pose regeneration for pose 1 (image "i2"):
the base layer caches poses 0 and 1, pose index is 1. -/
def exPose1 : AppState := (handlePoseSelect exBase 1 (GenResult.ok "i2")).1

/-- `exPose1` after switching back to the cached pose 0 (no gateway call)
and then generating a video "v1": pose index 0, video list `["v1"]`. -/
def exC7pre : AppState :=
  handleGenerateVideo ((handlePoseSelect exPose1 0 (GenResult.fail "unused")).1)
    (GenResult.ok "v1")

/-- `exC7pre` after switching to the cached pose 1 — a pose change that
touches no gateway. -/
def exC7post : AppState := (handlePoseSelect exC7pre 1 (GenResult.fail "unused")).1

/-- `exOne` after an undo (video list cleared) and a subsequent successful
video generation: cursor 0 with a redo tail for `gShirt`, video list
`["w1"]`. -/
def exC7undoVid : AppState :=
  handleGenerateVideo (handleRemoveLastGarment exOne) (GenResult.ok "w1")

/-- An arbitrary pre-state with a non-zero pose index, exercising
`handleModelFinalized` as a function. -/
def exPoseIdxTwo : AppState := { initialState with currentPoseIndex := 2 }

/-- A concrete gateway response carrying inline image data. -/
def rInlineEx : GenerateContentResponse :=
  { candidates := some
      [{ content := some { parts := some [{ inlineData := none },
           { inlineData := some { mimeType := "image/png", data := "QUJD" } }] }
         finishReason := some "STOP" }]
    text := none }

/-- A concrete gateway response with no image and a "SAFETY" finish
reason. -/
def rSafetyEx : GenerateContentResponse :=
  { candidates := some
      [{ content := some { parts := some [{ inlineData := none }] }
         finishReason := some "SAFETY" }]
    text := some "  blocked  " }

/-- A concrete gateway response with no image, a "STOP" finish reason and
only whitespace text. -/
def rTextEx : GenerateContentResponse :=
  { candidates := some
      [{ content := some { parts := none }, finishReason := some "STOP" }]
    text := some "   " }

/-! ## Branch lemmas for `handleGarmentSelect` -/

lemma garmentSelect_guard (s : AppState) (item : WardrobeItem) (gen : GenResult)
    (h : (!(jsTruthy (displayImageUrl s)) || s.isLoading) = true) :
    handleGarmentSelect s item gen = (s, false) := by
  unfold handleGarmentSelect
  rw [h]
  simp

lemma garmentSelect_fast (s : AppState) (item : WardrobeItem) (gen : GenResult)
    (h1 : (!(jsTruthy (displayImageUrl s)) || s.isLoading) = false)
    (h2 : fastPathHit s item = true) :
    handleGarmentSelect s item gen =
      ({ s with currentOutfitIndex := s.currentOutfitIndex + 1,
                currentPoseIndex := 0 }, false) := by
  unfold handleGarmentSelect
  rw [h1, h2]
  simp

lemma garmentSelect_slow_ok (s : AppState) (item : WardrobeItem) (url : String)
    (h1 : (!(jsTruthy (displayImageUrl s)) || s.isLoading) = false)
    (h2 : fastPathHit s item = false) :
    handleGarmentSelect s item (GenResult.ok url) = (slowSuccessState s item url, true) := by
  unfold handleGarmentSelect slowSuccessState
  rw [h1, h2]
  simp

lemma garmentSelect_slow_fail (s : AppState) (item : WardrobeItem) (msg : String)
    (h1 : (!(jsTruthy (displayImageUrl s)) || s.isLoading) = false)
    (h2 : fastPathHit s item = false) :
    handleGarmentSelect s item (GenResult.fail msg) =
      ({ s with error := some msg, isLoading := false, loadingMessage := "" }, true) := by
  unfold handleGarmentSelect
  rw [h1, h2]
  simp

lemma garmentSelect_called (s : AppState) (item : WardrobeItem) (gen : GenResult)
    (h : (handleGarmentSelect s item gen).2 = true) :
    (!(jsTruthy (displayImageUrl s)) || s.isLoading) = false ∧
    fastPathHit s item = false := by
  revert h
  unfold handleGarmentSelect
  split
  · intro h; simp at h
  · rename_i h1
    split
    · intro h; simp at h
    · rename_i h2
      intro _
      exact ⟨by simpa using h1, by simpa using h2⟩

lemma mem_of_some_getElem {α : Type} (l : List α) (i : Nat) (a : α)
    (h : l[i]? = some a) : a ∈ l := by
  obtain ⟨hlt, heq⟩ := List.getElem?_eq_some.mp h
  exact heq ▸ List.getElem_mem hlt

lemma fastPathHit_lt (s : AppState) (item : WardrobeItem)
    (h : fastPathHit s item = true) :
    s.currentOutfitIndex + 1 < s.outfitHistory.length := by
  unfold fastPathHit at h
  cases hg : s.outfitHistory[s.currentOutfitIndex + 1]? with
  | none => rw [hg] at h; simp at h
  | some l => exact (List.getElem?_eq_some.mp hg).1

lemma fastPathHit_spec (s : AppState) (item : WardrobeItem)
    (h : fastPathHit s item = true) :
    ∃ l g, s.outfitHistory[s.currentOutfitIndex + 1]? = some l ∧
      l.garment = some g ∧ g.id = item.id := by
  unfold fastPathHit at h
  cases hg : s.outfitHistory[s.currentOutfitIndex + 1]? with
  | none => rw [hg] at h; simp at h
  | some l =>
    simp only [hg] at h
    cases hgar : l.garment with
    | none => simp only [hgar] at h; simp at h
    | some g =>
      simp only [hgar] at h
      simp at h
      exact ⟨l, g, rfl, hgar, h⟩

lemma findSome?_eq_some_spec {α β : Type} (f : α → Option β) (l : List α) (b : β)
    (h : l.findSome? f = some b) : ∃ a ∈ l, f a = some b := by
  induction l with
  | nil => simp [List.findSome?] at h
  | cons x xs ih =>
    rw [List.findSome?_cons] at h
    cases hx : f x with
    | some v =>
      rw [hx] at h
      simp at h
      exact ⟨x, List.mem_cons_self x xs, by rw [hx, h]⟩
    | none =>
      rw [hx] at h
      obtain ⟨a, ha, hfa⟩ := ih h
      exact ⟨a, List.mem_cons_of_mem x ha, hfa⟩

/-! ## C1: the history/cursor invariant -/

lemma histInv_finalized (s : AppState) (url : String) :
    histInv (handleModelFinalized s url) := by
  simp [histInv, handleModelFinalized]

lemma histInv_garment (s : AppState) (item : WardrobeItem) (gen : GenResult)
    (h : histInv s) : histInv (handleGarmentSelect s item gen).1 := by
  unfold handleGarmentSelect
  split
  · exact h
  · split
    · rename_i hfast
      obtain ⟨hc, hh⟩ := h
      exact ⟨fastPathHit_lt s item hfast, hh⟩
    · cases gen with
      | ok url =>
        obtain ⟨hc, hh⟩ := h
        constructor
        · simp only [List.length_append, List.length_take, List.length_cons,
            List.length_nil]
          omega
        · cases hhist : s.outfitHistory with
          | nil => rw [hhist] at hc; simp at hc
          | cons a t =>
            rw [hhist] at hh
            simpa [List.take_succ_cons] using hh
      | fail msg => exact h

lemma histInv_click (s : AppState) (item : WardrobeItem) (gen : GenResult)
    (h : histInv s) : histInv (handleGarmentClick s item gen).1 := by
  unfold handleGarmentClick
  split
  · exact h
  · exact histInv_garment s item gen h

lemma histInv_remove (s : AppState) (h : histInv s) :
    histInv (handleRemoveLastGarment s) := by
  unfold handleRemoveLastGarment
  split
  · rename_i hpos
    obtain ⟨hc, hh⟩ := h
    exact ⟨Nat.lt_of_le_of_lt (Nat.sub_le _ _) hc, hh⟩
  · exact h

lemma histInv_pose (s : AppState) (newIndex : Nat) (gen : GenResult)
    (h : histInv s) : histInv (handlePoseSelect s newIndex gen).1 := by
  unfold handlePoseSelect
  split
  · exact h
  · cases hg : s.outfitHistory[s.currentOutfitIndex]? with
    | none => simp only [hg]; exact h
    | some currentLayer =>
      simp only [hg]
      split
      · exact h
      · split
        · exact h
        · cases gen with
          | ok url =>
            obtain ⟨hc, hh⟩ := h
            constructor
            · simpa [List.length_set] using hc
            · cases hhist : s.outfitHistory with
              | nil => rw [hhist] at hc; simp at hc
              | cons a t =>
                rw [hhist] at hh hg
                cases hcur : s.currentOutfitIndex with
                | zero =>
                  rw [hcur] at hg
                  simp only [List.getElem?_cons_zero, Option.some.injEq] at hg
                  subst hg
                  simpa using hh
                | succ n => simpa using hh
          | fail msg => exact h

lemma histInv_video (s : AppState) (gen : GenResult) (h : histInv s) :
    histInv (handleGenerateVideo s gen) := by
  unfold handleGenerateVideo
  split
  · exact h
  · cases gen with
    | ok url => exact h
    | fail msg => exact h

/-- C1: starting from `handleModelFinalized` and under any sequence of
garment applications (engine- or panel-level), undos, pose selections,
video generations and re-finalizations, the cursor `currentOutfitIndex`
always addresses an existing history layer (it lies in
`[0, length(outfitHistory)-1]`) and the first history layer always has a
null garment. -/
theorem C1_history_cursor_invariant (s : AppState) (h : Reachable s) :
    s.currentOutfitIndex < s.outfitHistory.length ∧
    (s.outfitHistory.head?).map OutfitLayer.garment = some none := by
  induction h with
  | init url => exact histInv_finalized initialState url
  | finalize s url _ _ => exact histInv_finalized s url
  | garment s item gen _ ih => exact histInv_garment s item gen ih
  | click s item gen _ ih => exact histInv_click s item gen ih
  | remove s _ ih => exact histInv_remove s ih
  | pose s newIndex gen _ ih => exact histInv_pose s newIndex gen ih
  | video s gen _ ih => exact histInv_video s gen ih

/-- Witness for C1 at the concrete state reached by finalizing the model
image "m0". -/
theorem C1_history_cursor_invariant_witness :
    (handleModelFinalized initialState "m0").currentOutfitIndex <
      (handleModelFinalized initialState "m0").outfitHistory.length ∧
    ((handleModelFinalized initialState "m0").outfitHistory.head?).map
      OutfitLayer.garment = some none :=
  C1_history_cursor_invariant _ (Reachable.init "m0")

/-! ## C10: undo at the base layer -/

/-- C10: when the cursor is 0 (only the base layer active),
`handleRemoveLastGarment` returns the state unchanged — every field
(history, cursor, pose index, video list, wardrobe, error, and all the
rest) is exactly as before the call. -/
theorem C10_remove_at_base_noop (s : AppState) (h : s.currentOutfitIndex = 0) :
    handleRemoveLastGarment s = s := by
  simp [handleRemoveLastGarment, h]

/-- Witness for C10 at the freshly finalized state (cursor 0). -/
theorem C10_remove_at_base_noop_witness :
    exBase.currentOutfitIndex = 0 ∧ handleRemoveLastGarment exBase = exBase :=
  ⟨by decide, C10_remove_at_base_noop exBase (by decide)⟩

/-! ## C5: failed pose regeneration is fully rolled back -/

/-- C5: a `handlePoseSelect` call for which the layer under the cursor has
no image cached for the target pose and whose pose-regeneration gateway
call fails leaves `currentPoseIndex` at its pre-call value and leaves the
whole outfit history — in particular the active layer's `poseImages`
mapping — unchanged (the optimistic pose-index update is rolled back and no
entry is added). -/
theorem C5_pose_failure_rollback (s : AppState) (newIndex : Nat) (msg : String)
    (layer : OutfitLayer)
    (hl : s.outfitHistory[s.currentOutfitIndex]? = some layer)
    (hmiss : jsTruthy (lookupPose layer.poseImages (poseInstructionAt newIndex)) = false) :
    (handlePoseSelect s newIndex (GenResult.fail msg)).1.currentPoseIndex =
        s.currentPoseIndex ∧
    (handlePoseSelect s newIndex (GenResult.fail msg)).1.outfitHistory =
        s.outfitHistory := by
  unfold handlePoseSelect
  split
  · exact ⟨rfl, rfl⟩
  · simp only [hl, hmiss]
    split
    · rename_i hcontra
      simp at hcontra
    · split
      · exact ⟨rfl, rfl⟩
      · exact ⟨rfl, rfl⟩

/-- Witness for C5: from `exOne` (active layer caches only pose 0), a failed
switch to pose 1 keeps pose index 0 and the history intact. -/
theorem C5_pose_failure_rollback_witness :
    exOne.outfitHistory[exOne.currentOutfitIndex]? =
        some { garment := some gShirt, poseImages := [(poseInstructionAt 0, "i1")] } ∧
    jsTruthy (lookupPose [(poseInstructionAt 0, "i1")] (poseInstructionAt 1)) = false ∧
    ((handlePoseSelect exOne 1 (GenResult.fail "err")).1.currentPoseIndex =
        exOne.currentPoseIndex ∧
      (handlePoseSelect exOne 1 (GenResult.fail "err")).1.outfitHistory =
        exOne.outfitHistory) :=
  ⟨by decide, by decide,
    C5_pose_failure_rollback exOne 1 "err"
      { garment := some gShirt, poseImages := [(poseInstructionAt 0, "i1")] }
      (by decide) (by decide)⟩

/-! ## C6: the video list never exceeds two entries -/

lemma videoCap_finalized (s : AppState) (url : String)
    (h : s.videoUrls.length ≤ 2) :
    (handleModelFinalized s url).videoUrls.length ≤ 2 := h

lemma videoCap_garment (s : AppState) (item : WardrobeItem) (gen : GenResult)
    (h : s.videoUrls.length ≤ 2) :
    (handleGarmentSelect s item gen).1.videoUrls.length ≤ 2 := by
  unfold handleGarmentSelect
  split
  · exact h
  · split
    · exact h
    · cases gen with
      | ok url => simp
      | fail msg => exact h

lemma videoCap_click (s : AppState) (item : WardrobeItem) (gen : GenResult)
    (h : s.videoUrls.length ≤ 2) :
    (handleGarmentClick s item gen).1.videoUrls.length ≤ 2 := by
  unfold handleGarmentClick
  split
  · exact h
  · exact videoCap_garment s item gen h

lemma videoCap_remove (s : AppState) (h : s.videoUrls.length ≤ 2) :
    (handleRemoveLastGarment s).videoUrls.length ≤ 2 := by
  unfold handleRemoveLastGarment
  split
  · simp
  · exact h

lemma videoCap_pose (s : AppState) (newIndex : Nat) (gen : GenResult)
    (h : s.videoUrls.length ≤ 2) :
    (handlePoseSelect s newIndex gen).1.videoUrls.length ≤ 2 := by
  unfold handlePoseSelect
  split
  · exact h
  · cases hg : s.outfitHistory[s.currentOutfitIndex]? with
    | none => simp only [hg]; exact h
    | some currentLayer =>
      simp only [hg]
      split
      · exact h
      · split
        · exact h
        · cases gen with
          | ok url => simp
          | fail msg => exact h

lemma videoCap_video (s : AppState) (gen : GenResult)
    (h : s.videoUrls.length ≤ 2) :
    (handleGenerateVideo s gen).videoUrls.length ≤ 2 := by
  unfold handleGenerateVideo
  split
  · exact h
  · cases gen with
    | ok url =>
      simp only [List.length_drop]
      omega
    | fail msg => exact h

/-- C6: (1) in every reachable state the video list holds at most 2
entries; (2) a successful `handleGenerateVideo` on a state whose video list
already holds exactly two entries drops the oldest one and keeps the
insertion order of the remaining two. -/
theorem C6_video_list_cap :
    (∀ s : AppState, Reachable s → s.videoUrls.length ≤ 2) ∧
    (∀ (s : AppState) (a b url : String),
      s.videoUrls = [a, b] →
      jsTruthy (displayImageUrl s) = true →
      s.isVideoLoading = false →
      (handleGenerateVideo s (GenResult.ok url)).videoUrls = [b, url]) := by
  constructor
  · intro s h
    induction h with
    | init url => simp [handleModelFinalized, initialState]
    | finalize s url _ ih => exact videoCap_finalized s url ih
    | garment s item gen _ ih => exact videoCap_garment s item gen ih
    | click s item gen _ ih => exact videoCap_click s item gen ih
    | remove s _ ih => exact videoCap_remove s ih
    | pose s newIndex gen _ ih => exact videoCap_pose s newIndex gen ih
    | video s gen _ ih => exact videoCap_video s gen ih
  · intro s a b url hv hdisp hload
    unfold handleGenerateVideo
    rw [hdisp, hload]
    simp [hv]

/-- Witness for C6: the cap holds at the concrete reachable state just
after finalization, and at `exVid2` (video list `["v1", "v2"]`) a third
successful generation yields `["v2", "v3"]`. -/
theorem C6_video_list_cap_witness :
    (handleModelFinalized initialState "m0").videoUrls.length ≤ 2 ∧
    (exVid2.videoUrls = ["v1", "v2"] ∧
      jsTruthy (displayImageUrl exVid2) = true ∧
      exVid2.isVideoLoading = false ∧
      (handleGenerateVideo exVid2 (GenResult.ok "v3")).videoUrls = ["v2", "v3"]) :=
  ⟨C6_video_list_cap.1 _ (Reachable.init "m0"),
    by decide, by decide, by decide,
    C6_video_list_cap.2 exVid2 "v1" "v2" "v3" (by decide) (by decide) (by decide)⟩

/-! ## C2: applying the same garment twice in a row -/

lemma activeIds_contains (s' : AppState) (item : WardrobeItem) (l : OutfitLayer)
    (g : WardrobeItem) (hmem : l ∈ activeOutfitLayers s') (hg : l.garment = some g)
    (hgid : g.id = item.id) (hne : item.id ≠ "") :
    (activeGarmentIds s').contains item.id = true := by
  apply List.elem_iff.mpr
  unfold activeGarmentIds
  apply List.mem_filter.mpr
  constructor
  · exact List.mem_filterMap.mpr ⟨l, hmem, by rw [hg]; simp [hgid]⟩
  · simp [hne]

/-- C2 counterexample: from `exOne` — the state in which
`ApplyGarment(gShirt)` has just succeeded (cursor 1) — calling the engine
operation `handleGarmentSelect` again with the same item issues a second
generation-gateway call (the returned flag is `true`) and moves the cursor
to 2, appending a duplicate layer, instead of being a no-op at cursor 1 as
the claim states. -/
theorem C2_second_apply_counterexample :
    exOne.currentOutfitIndex = 1 ∧
    (handleGarmentSelect exOne gShirt (GenResult.ok "i2")).2 = true ∧
    (handleGarmentSelect exOne gShirt (GenResult.ok "i2")).1.currentOutfitIndex = 2 ∧
    (handleGarmentSelect exOne gShirt (GenResult.ok "i2")).1.outfitHistory.length = 3 := by
  decide

/-- C2 amended: after any `handleGarmentSelect` that advanced the cursor
(fast path or successful generation) with an item whose id is non-empty,
the item's id is among the active garment ids, so the wardrobe panel's
`handleGarmentClick` — the only UI path into the engine — rejects a second
selection of the same item: it performs no generation-gateway call and
leaves the state (in particular the cursor) exactly as it was. -/
theorem C2_second_apply_blocked (s : AppState) (item : WardrobeItem)
    (gen gen' : GenResult) (hid : item.id ≠ "")
    (hadv : (handleGarmentSelect s item gen).1.currentOutfitIndex =
      s.currentOutfitIndex + 1) :
    handleGarmentClick (handleGarmentSelect s item gen).1 item gen' =
      ((handleGarmentSelect s item gen).1, false) := by
  have hmem : (activeGarmentIds (handleGarmentSelect s item gen).1).contains item.id
      = true := by
    by_cases h1 : (!(jsTruthy (displayImageUrl s)) || s.isLoading) = true
    · rw [garmentSelect_guard s item gen h1] at hadv
      simp at hadv
    · have h1' : (!(jsTruthy (displayImageUrl s)) || s.isLoading) = false := by
        simpa using h1
      by_cases h2 : fastPathHit s item = true
      · rw [garmentSelect_fast s item gen h1' h2]
        obtain ⟨l, g, hl, hg, hgid⟩ := fastPathHit_spec s item h2
        apply activeIds_contains _ item l g _ hg hgid hid
        unfold activeOutfitLayers
        apply mem_of_some_getElem _ (s.currentOutfitIndex + 1)
        rw [List.getElem?_take]
        simp [hl]
      · have h2' : fastPathHit s item = false := by simpa using h2
        cases gen with
        | ok url =>
          rw [garmentSelect_slow_ok s item url h1' h2']
          apply activeIds_contains _ item
            { garment := some item
              poseImages := [(poseInstructionAt s.currentPoseIndex, url)] }
            item _ rfl rfl hid
          unfold activeOutfitLayers slowSuccessState
          rw [List.take_of_length_le]
          · simp
          · simp only [List.length_append, List.length_take, List.length_cons,
              List.length_nil]
            omega
        | fail msg =>
          rw [garmentSelect_slow_fail s item msg h1' h2'] at hadv
          simp at hadv
  unfold handleGarmentClick
  rw [hmem]
  simp

/-- Witness for C2 (amended): concrete second selection of `gShirt` right
after it was applied successfully is rejected by the panel. -/
theorem C2_second_apply_blocked_witness :
    gShirt.id ≠ "" ∧
    (handleGarmentSelect exBase gShirt (GenResult.ok "i1")).1.currentOutfitIndex =
      exBase.currentOutfitIndex + 1 ∧
    handleGarmentClick (handleGarmentSelect exBase gShirt (GenResult.ok "i1")).1
        gShirt (GenResult.ok "i2") =
      ((handleGarmentSelect exBase gShirt (GenResult.ok "i1")).1, false) :=
  ⟨by decide, by decide,
    C2_second_apply_blocked exBase gShirt (GenResult.ok "i1") (GenResult.ok "i2")
      (by decide) (by decide)⟩

/-! ## C3: undo followed by re-applying the identical garment -/

lemma getElem_take_append {α : Type} (h : List α) (c : Nat) (L : α)
    (hc : c + 1 ≤ h.length) : (h.take (c + 1) ++ [L])[c + 1]? = some L := by
  have hlen : (h.take (c + 1)).length = c + 1 := by
    rw [List.length_take]
    exact Nat.min_eq_left hc
  rw [List.getElem?_append_right (le_of_eq hlen), hlen]
  simp

lemma remove_slowSuccess (s : AppState) (item : WardrobeItem) (url : String) :
    handleRemoveLastGarment (slowSuccessState s item url) =
      { slowSuccessState s item url with
          currentOutfitIndex := s.currentOutfitIndex
          currentPoseIndex := 0 } := by
  unfold handleRemoveLastGarment slowSuccessState
  simp

lemma fastPathHit_undone (s : AppState) (item item' : WardrobeItem) (url : String)
    (hc : s.currentOutfitIndex + 1 ≤ s.outfitHistory.length)
    (hid : item.id = item'.id) :
    fastPathHit
      { slowSuccessState s item url with
          currentOutfitIndex := s.currentOutfitIndex
          currentPoseIndex := 0 } item' = true := by
  unfold fastPathHit
  have hH : ({ slowSuccessState s item url with
      currentOutfitIndex := s.currentOutfitIndex
      currentPoseIndex := 0 } : AppState).outfitHistory =
    s.outfitHistory.take (s.currentOutfitIndex + 1) ++
      [{ garment := some item
         poseImages := [(poseInstructionAt s.currentPoseIndex, url)] }] := rfl
  have hC : ({ slowSuccessState s item url with
      currentOutfitIndex := s.currentOutfitIndex
      currentPoseIndex := 0 } : AppState).currentOutfitIndex =
    s.currentOutfitIndex := rfl
  rw [hH, hC, getElem_take_append s.outfitHistory s.currentOutfitIndex _ hc]
  simp [hid]

/-- C3: if `ApplyGarment(item)` succeeds through the generation path
(producing state `s1` with the call flag `true`), then after
`RemoveLastGarment`, re-selecting any item with the same garment id takes
the redo fast path: it issues no generation-gateway call, returns the
undone state with the cursor advanced back to its pre-undo value (`s1`'s
cursor, which is the pre-call cursor plus one) and pose index 0, the
history is the same list as `s1`'s, and the layer at the restored cursor is
the identical layer created by the first call, with its `poseImages`
mapping unchanged. -/
theorem C3_undo_redo_fast_path (s s1 : AppState) (item item' : WardrobeItem)
    (url : String) (gen' : GenResult)
    (hc : s.currentOutfitIndex < s.outfitHistory.length)
    (hid : item'.id = item.id)
    (hs1 : handleGarmentSelect s item (GenResult.ok url) = (s1, true))
    (hdisp : jsTruthy (displayImageUrl (handleRemoveLastGarment s1)) = true) :
    handleGarmentSelect (handleRemoveLastGarment s1) item' gen' =
      ({ handleRemoveLastGarment s1 with
          currentOutfitIndex := s1.currentOutfitIndex
          currentPoseIndex := 0 }, false) ∧
    (handleRemoveLastGarment s1).outfitHistory = s1.outfitHistory ∧
    s1.currentOutfitIndex = s.currentOutfitIndex + 1 ∧
    s1.outfitHistory[s1.currentOutfitIndex]? =
      some { garment := some item
             poseImages := [(poseInstructionAt s.currentPoseIndex, url)] } := by
  have hcall : (handleGarmentSelect s item (GenResult.ok url)).2 = true := by rw [hs1]
  obtain ⟨h1, h2⟩ := garmentSelect_called s item (GenResult.ok url) hcall
  have hs1' : s1 = slowSuccessState s item url := by
    have heq := garmentSelect_slow_ok s item url h1 h2
    rw [hs1] at heq
    exact (Prod.mk.injEq _ _ _ _).mp heq |>.1
  subst hs1'
  rw [remove_slowSuccess] at hdisp ⊢
  have hguard : (!(jsTruthy (displayImageUrl
      ({ slowSuccessState s item url with
          currentOutfitIndex := s.currentOutfitIndex
          currentPoseIndex := 0 } : AppState))) ||
      ({ slowSuccessState s item url with
          currentOutfitIndex := s.currentOutfitIndex
          currentPoseIndex := 0 } : AppState).isLoading) = false := by
    rw [hdisp]
    rfl
  have hfast := fastPathHit_undone s item item' url (by omega) hid.symm
  refine ⟨?_, rfl, rfl, ?_⟩
  · rw [garmentSelect_fast _ item' gen' hguard hfast]
    rfl
  · exact getElem_take_append s.outfitHistory s.currentOutfitIndex _ (by omega)

/-- Witness for C3 on the concrete run: apply `gShirt` to `exBase`
successfully, undo, and re-select `gShirt`. -/
theorem C3_undo_redo_fast_path_witness :
    exBase.currentOutfitIndex < exBase.outfitHistory.length ∧
    handleGarmentSelect exBase gShirt (GenResult.ok "i1") = (exOne, true) ∧
    jsTruthy (displayImageUrl (handleRemoveLastGarment exOne)) = true ∧
    (handleGarmentSelect (handleRemoveLastGarment exOne) gShirt (GenResult.fail "unused") =
        ({ handleRemoveLastGarment exOne with
            currentOutfitIndex := exOne.currentOutfitIndex
            currentPoseIndex := 0 }, false) ∧
      (handleRemoveLastGarment exOne).outfitHistory = exOne.outfitHistory ∧
      exOne.currentOutfitIndex = exBase.currentOutfitIndex + 1 ∧
      exOne.outfitHistory[exOne.currentOutfitIndex]? =
        some { garment := some gShirt
               poseImages := [(poseInstructionAt exBase.currentPoseIndex, "i1")] }) :=
  ⟨by decide, by decide, by decide,
    C3_undo_redo_fast_path exBase exOne gShirt gShirt "i1" (GenResult.fail "unused")
      (by decide) (by decide) (by decide) (by decide)⟩

/-! ## C4: applying a different garment after an undo -/

/-- C4 counterexample: at `exOne` the cursor before the undo is 1; after
`RemoveLastGarment` and a successful application of the different garment
`gHat`, the history length is 2 — the active prefix (1 layer) plus the new
layer — not 1 (= the cursor value before the undo) as the claim states. -/
theorem C4_discard_length_counterexample :
    exOne.currentOutfitIndex = 1 ∧
    (handleGarmentSelect (handleRemoveLastGarment exOne) gHat
        (GenResult.ok "i2")).2 = true ∧
    (handleGarmentSelect (handleRemoveLastGarment exOne) gHat
        (GenResult.ok "i2")).1.outfitHistory.length = 2 ∧
    (handleGarmentSelect (handleRemoveLastGarment exOne) gHat
        (GenResult.ok "i2")).1.outfitHistory.length ≠ exOne.currentOutfitIndex := by
  decide

/-- C4 amended: with cursor `c > 0` before the undo, an undo followed by a
garment application that goes through the generation path successfully
leaves `history = history.take c ++ [newLayer]` — the previously undone
tail is discarded and the resulting length is `c + 1` (the active prefix of
length `c` plus the new layer), not `c`. -/
theorem C4_discard_redo_tail (s : AppState) (item : WardrobeItem) (url : String)
    (h0 : 0 < s.currentOutfitIndex)
    (hlen : s.currentOutfitIndex ≤ s.outfitHistory.length)
    (hcall : (handleGarmentSelect (handleRemoveLastGarment s) item
      (GenResult.ok url)).2 = true) :
    (handleGarmentSelect (handleRemoveLastGarment s) item
        (GenResult.ok url)).1.outfitHistory =
      s.outfitHistory.take s.currentOutfitIndex ++
        [{ garment := some item, poseImages := [(poseInstructionAt 0, url)] }] ∧
    (handleGarmentSelect (handleRemoveLastGarment s) item
        (GenResult.ok url)).1.outfitHistory.length = s.currentOutfitIndex + 1 := by
  obtain ⟨h1, h2⟩ :=
    garmentSelect_called (handleRemoveLastGarment s) item (GenResult.ok url) hcall
  rw [garmentSelect_slow_ok (handleRemoveLastGarment s) item url h1 h2]
  have hs2 : handleRemoveLastGarment s =
      { s with
          currentOutfitIndex := s.currentOutfitIndex - 1
          currentPoseIndex := 0
          videoUrls := [] } := by
    unfold handleRemoveLastGarment
    simp [h0]
  rw [hs2]
  have hc1 : s.currentOutfitIndex - 1 + 1 = s.currentOutfitIndex := by omega
  constructor
  · simp only [slowSuccessState, hc1]
  · simp only [slowSuccessState, hc1, List.length_append, List.length_take,
      List.length_cons, List.length_nil]
    omega

/-- Witness for C4 (amended) on the concrete run from `exOne`. -/
theorem C4_discard_redo_tail_witness :
    0 < exOne.currentOutfitIndex ∧
    exOne.currentOutfitIndex ≤ exOne.outfitHistory.length ∧
    (handleGarmentSelect (handleRemoveLastGarment exOne) gHat
        (GenResult.ok "i2")).2 = true ∧
    ((handleGarmentSelect (handleRemoveLastGarment exOne) gHat
        (GenResult.ok "i2")).1.outfitHistory =
      exOne.outfitHistory.take exOne.currentOutfitIndex ++
        [{ garment := some gHat, poseImages := [(poseInstructionAt 0, "i2")] }] ∧
      (handleGarmentSelect (handleRemoveLastGarment exOne) gHat
        (GenResult.ok "i2")).1.outfitHistory.length = exOne.currentOutfitIndex + 1) :=
  ⟨by decide, by decide, by decide,
    C4_discard_redo_tail exOne gHat "i2" (by decide) (by decide) (by decide)⟩

/-! ## C7: which operations clear the video list -/

/-- C7 counterexample: two operations that change the active pose or
outfit but do NOT clear the video list.  (1) At `exC7pre` (pose 0, video
list `["v1"]`, pose 1 cached) switching to the cached pose 1 changes the
pose without touching the gateway and leaves the video list `["v1"]`.
(2) At `exC7undoVid` (cursor 0, redo tail for `gShirt`, video list
`["w1"]`) re-selecting `gShirt` takes the fast path: the cursor advances to
1 — the active outfit changes — and the video list stays `["w1"]`. -/
theorem C7_clear_counterexample :
    (exC7pre.currentPoseIndex = 0 ∧
      exC7pre.videoUrls = ["v1"] ∧
      exC7post.currentPoseIndex = 1 ∧
      exC7post.videoUrls = ["v1"]) ∧
    (exC7undoVid.currentOutfitIndex = 0 ∧
      exC7undoVid.videoUrls = ["w1"] ∧
      (handleGarmentSelect exC7undoVid gShirt (GenResult.fail "unused")).2 = false ∧
      (handleGarmentSelect exC7undoVid gShirt
          (GenResult.fail "unused")).1.currentOutfitIndex = 1 ∧
      (handleGarmentSelect exC7undoVid gShirt
          (GenResult.fail "unused")).1.videoUrls = ["w1"]) := by
  decide

/-- C7 amended: the video list is cleared exactly by (1) an undo with
cursor > 0, (2) a garment application that actually issues a generation
call and succeeds, and (3) a pose selection that actually issues a
regeneration call and succeeds.  Operations that issue no gateway call
(the redo fast path, a cached-pose switch, any guarded no-op) leave the
video list unchanged, as does any failed generation call. -/
theorem C7_video_clear_policy :
    (∀ s : AppState, 0 < s.currentOutfitIndex →
      (handleRemoveLastGarment s).videoUrls = []) ∧
    (∀ (s : AppState) (item : WardrobeItem) (url : String),
      (handleGarmentSelect s item (GenResult.ok url)).2 = true →
      (handleGarmentSelect s item (GenResult.ok url)).1.videoUrls = []) ∧
    (∀ (s : AppState) (newIndex : Nat) (url : String),
      (handlePoseSelect s newIndex (GenResult.ok url)).2 = true →
      (handlePoseSelect s newIndex (GenResult.ok url)).1.videoUrls = []) ∧
    (∀ (s : AppState) (item : WardrobeItem) (gen : GenResult),
      (handleGarmentSelect s item gen).2 = false →
      (handleGarmentSelect s item gen).1.videoUrls = s.videoUrls) ∧
    (∀ (s : AppState) (newIndex : Nat) (gen : GenResult),
      (handlePoseSelect s newIndex gen).2 = false →
      (handlePoseSelect s newIndex gen).1.videoUrls = s.videoUrls) ∧
    (∀ (s : AppState) (item : WardrobeItem) (msg : String),
      (handleGarmentSelect s item (GenResult.fail msg)).1.videoUrls = s.videoUrls) ∧
    (∀ (s : AppState) (newIndex : Nat) (msg : String),
      (handlePoseSelect s newIndex (GenResult.fail msg)).1.videoUrls = s.videoUrls) := by
  refine ⟨?_, ?_, ?_, ?_, ?_, ?_, ?_⟩
  · intro s h
    simp [handleRemoveLastGarment, h]
  · intro s item url h
    obtain ⟨h1, h2⟩ := garmentSelect_called s item (GenResult.ok url) h
    rw [garmentSelect_slow_ok s item url h1 h2]
    rfl
  · intro s newIndex url
    unfold handlePoseSelect
    split
    · intro h; simp at h
    · cases hg : s.outfitHistory[s.currentOutfitIndex]? with
      | none => simp only [hg]; intro h; simp at h
      | some currentLayer =>
        simp only [hg]
        split
        · intro h; simp at h
        · split
          · intro h; simp at h
          · intro _; rfl
  · intro s item gen
    unfold handleGarmentSelect
    split
    · intro _; rfl
    · split
      · intro _; rfl
      · cases gen with
        | ok url => intro h; simp at h
        | fail msg => intro h; simp at h
  · intro s newIndex gen
    unfold handlePoseSelect
    split
    · intro _; rfl
    · cases hg : s.outfitHistory[s.currentOutfitIndex]? with
      | none => simp only [hg]; intro _; trivial
      | some currentLayer =>
        simp only [hg]
        split
        · intro _; rfl
        · split
          · intro _; rfl
          · cases gen with
            | ok url => intro h; simp at h
            | fail msg => intro h; simp at h
  · intro s item msg
    unfold handleGarmentSelect
    split
    · rfl
    · split
      · rfl
      · rfl
  · intro s newIndex msg
    unfold handlePoseSelect
    split
    · rfl
    · cases hg : s.outfitHistory[s.currentOutfitIndex]? with
      | none => simp only [hg]
      | some currentLayer =>
        simp only [hg]
        split
        · rfl
        · split
          · rfl
          · rfl

/-- Witness for C7 (amended) on concrete runs: a real undo, a real
successful garment generation, and a real successful pose regeneration all
clear the list. -/
theorem C7_video_clear_policy_witness :
    (0 < exOne.currentOutfitIndex ∧
      (handleRemoveLastGarment exOne).videoUrls = []) ∧
    ((handleGarmentSelect exBase gShirt (GenResult.ok "i1")).2 = true ∧
      (handleGarmentSelect exBase gShirt (GenResult.ok "i1")).1.videoUrls = []) ∧
    ((handlePoseSelect exBase 1 (GenResult.ok "i2")).2 = true ∧
      (handlePoseSelect exBase 1 (GenResult.ok "i2")).1.videoUrls = []) :=
  ⟨⟨by decide, C7_video_clear_policy.1 exOne (by decide)⟩,
    ⟨by decide, C7_video_clear_policy.2.1 exBase gShirt "i1" (by decide)⟩,
    ⟨by decide, C7_video_clear_policy.2.2.1 exBase 1 "i2" (by decide)⟩⟩

/-! ## C8: Initialize (`handleModelFinalized`) -/

lemma garment_modelImage (s : AppState) (item : WardrobeItem) (gen : GenResult) :
    (handleGarmentSelect s item gen).1.modelImageUrl = s.modelImageUrl := by
  unfold handleGarmentSelect
  split
  · rfl
  · split
    · rfl
    · cases gen with
      | ok url => rfl
      | fail msg => rfl

lemma click_modelImage (s : AppState) (item : WardrobeItem) (gen : GenResult) :
    (handleGarmentClick s item gen).1.modelImageUrl = s.modelImageUrl := by
  unfold handleGarmentClick
  split
  · rfl
  · exact garment_modelImage s item gen

lemma remove_modelImage (s : AppState) :
    (handleRemoveLastGarment s).modelImageUrl = s.modelImageUrl := by
  unfold handleRemoveLastGarment
  split
  · rfl
  · rfl

lemma pose_modelImage (s : AppState) (newIndex : Nat) (gen : GenResult) :
    (handlePoseSelect s newIndex gen).1.modelImageUrl = s.modelImageUrl := by
  unfold handlePoseSelect
  split
  · rfl
  · cases hg : s.outfitHistory[s.currentOutfitIndex]? with
    | none => simp only [hg]
    | some currentLayer =>
      simp only [hg]
      split
      · rfl
      · split
        · rfl
        · cases gen with
          | ok url => rfl
          | fail msg => rfl

lemma video_modelImage (s : AppState) (gen : GenResult) :
    (handleGenerateVideo s gen).modelImageUrl = s.modelImageUrl := by
  unfold handleGenerateVideo
  split
  · rfl
  · cases gen with
    | ok url => rfl
    | fail msg => rfl

lemma video_history (s : AppState) (gen : GenResult) :
    (handleGenerateVideo s gen).outfitHistory = s.outfitHistory := by
  unfold handleGenerateVideo
  split
  · rfl
  · cases gen with
    | ok url => rfl
    | fail msg => rfl

lemma video_poseIdx (s : AppState) (gen : GenResult) :
    (handleGenerateVideo s gen).currentPoseIndex = s.currentPoseIndex := by
  unfold handleGenerateVideo
  split
  · rfl
  · cases gen with
    | ok url => rfl
    | fail msg => rfl

/-- While the start screen is shown (`modelImageUrl` falsy), the outfit
history is empty and the pose index is 0 — so every point at which the app
can actually invoke `handleModelFinalized` has pose index 0. -/
lemma startScreen_state (s : AppState) (h : AppReachable s) :
    jsTruthy s.modelImageUrl = false →
    s.outfitHistory = [] ∧ s.currentPoseIndex = 0 := by
  induction h with
  | start => intro _; exact ⟨rfl, rfl⟩
  | finalize s url hs hurl hscreen ih =>
    intro hfalse
    exfalso
    have hcoll : jsTruthy (some url) = false := hfalse
    simp [jsTruthy, hurl] at hcoll
  | startOver s hs ih => intro _; exact ⟨rfl, rfl⟩
  | garment s item gen hs ih =>
    intro hfalse
    rw [garment_modelImage] at hfalse
    obtain ⟨hh, hp⟩ := ih hfalse
    have hguard : (!(jsTruthy (displayImageUrl s)) || s.isLoading) = true := by
      have hdisp : displayImageUrl s = s.modelImageUrl := by
        simp [displayImageUrl, hh]
      rw [hdisp, hfalse]
      simp
    rw [garmentSelect_guard s item gen hguard]
    exact ⟨hh, hp⟩
  | click s item gen hs ih =>
    intro hfalse
    rw [click_modelImage] at hfalse
    obtain ⟨hh, hp⟩ := ih hfalse
    unfold handleGarmentClick
    split
    · exact ⟨hh, hp⟩
    · have hguard : (!(jsTruthy (displayImageUrl s)) || s.isLoading) = true := by
        have hdisp : displayImageUrl s = s.modelImageUrl := by
          simp [displayImageUrl, hh]
        rw [hdisp, hfalse]
        simp
      rw [garmentSelect_guard s item gen hguard]
      exact ⟨hh, hp⟩
  | remove s hs ih =>
    intro hfalse
    rw [remove_modelImage] at hfalse
    obtain ⟨hh, hp⟩ := ih hfalse
    unfold handleRemoveLastGarment
    split
    · exact ⟨hh, rfl⟩
    · exact ⟨hh, hp⟩
  | pose s newIndex gen hs ih =>
    intro hfalse
    rw [pose_modelImage] at hfalse
    obtain ⟨hh, hp⟩ := ih hfalse
    have hempty : s.outfitHistory.isEmpty = true := by simp [hh]
    unfold handlePoseSelect
    rw [hempty]
    simp only [Bool.true_or, Bool.or_true, if_true]
    exact ⟨hh, hp⟩
  | video s gen hs ih =>
    intro hfalse
    rw [video_modelImage] at hfalse
    obtain ⟨hh, hp⟩ := ih hfalse
    exact ⟨by rw [video_history]; exact hh, by rw [video_poseIdx]; exact hp⟩

/-- C8 counterexample: `handleModelFinalized` does not reset the pose
index — called on a state with pose index 2 it leaves it at 2 (the claim
says 0) — and it has no guard for an absent model image: called with the
empty (falsy) URL it still rewrites the state rather than being a no-op. -/
theorem C8_initialize_counterexample :
    (handleModelFinalized exPoseIdxTwo "m0").currentPoseIndex = 2 ∧
    handleModelFinalized initialState "" ≠ initialState ∧
    (handleModelFinalized initialState "").modelImageUrl = some "" := by
  decide

/-- C8 amended: `handleModelFinalized s url` sets the history to the single
base layer with `poseInstructions[0] ↦ url`, resets the cursor to 0 and
records the model image — for every `url`, including the empty one (the
handler has no missing-image guard of its own; the start screen invokes it
only when a non-empty generated model URL exists) — and leaves the pose
index unchanged.  Moreover at every app-reachable state where the start
screen is shown (model image falsy), the pose index is 0, so every call the
app can actually make results in pose index 0. -/
theorem C8_initialize_effect :
    (∀ (s : AppState) (url : String),
      (handleModelFinalized s url).outfitHistory =
          [{ garment := none, poseImages := [(poseInstructionAt 0, url)] }] ∧
      (handleModelFinalized s url).currentOutfitIndex = 0 ∧
      (handleModelFinalized s url).modelImageUrl = some url ∧
      (handleModelFinalized s url).currentPoseIndex = s.currentPoseIndex) ∧
    (∀ (s : AppState) (url : String), AppReachable s →
      jsTruthy s.modelImageUrl = false →
      (handleModelFinalized s url).currentPoseIndex = 0) := by
  constructor
  · intro s url
    exact ⟨rfl, rfl, rfl, rfl⟩
  · intro s url hr hfalse
    exact (startScreen_state s hr hfalse).2

/-- Witness for C8 (amended): the characterization at the concrete initial
state, and the app-level call from the freshly mounted app yields pose
index 0. -/
theorem C8_initialize_effect_witness :
    ((handleModelFinalized initialState "m0").outfitHistory =
        [{ garment := none, poseImages := [(poseInstructionAt 0, "m0")] }] ∧
      (handleModelFinalized initialState "m0").currentOutfitIndex = 0 ∧
      (handleModelFinalized initialState "m0").modelImageUrl = some "m0" ∧
      (handleModelFinalized initialState "m0").currentPoseIndex =
        initialState.currentPoseIndex) ∧
    (jsTruthy initialState.modelImageUrl = false ∧
      (handleModelFinalized initialState "m0").currentPoseIndex = 0) :=
  ⟨C8_initialize_effect.1 initialState "m0",
    by decide,
    C8_initialize_effect.2 initialState "m0" AppReachable.start (by decide)⟩

/-! ## C9: `handleApiResponse` failure cascade -/

lemma hasInlineImage_iff (r : GenerateContentResponse) :
    hasInlineImage r ↔ (firstInlineData r).isSome = true := by
  unfold hasInlineImage firstInlineData
  constructor
  · rintro ⟨c, hc, p, hp, hsome⟩
    cases hfind : ((r.candidates.getD []).flatMap candidateParts).findSome?
        (fun p => p.inlineData) with
    | some d => simp
    | none =>
      rw [List.findSome?_eq_none_iff] at hfind
      have hmem : p ∈ (r.candidates.getD []).flatMap candidateParts :=
        List.mem_flatMap.mpr ⟨c, hc, hp⟩
      rw [hfind p hmem] at hsome
      simp at hsome
  · intro hsome
    cases hfind : ((r.candidates.getD []).flatMap candidateParts).findSome?
        (fun p => p.inlineData) with
    | none => rw [hfind] at hsome; simp at hsome
    | some d =>
      obtain ⟨p, hp, hpd⟩ := findSome?_eq_some_spec _ _ _ hfind
      obtain ⟨c, hc, hpc⟩ := List.mem_flatMap.mp hp
      exact ⟨c, hc, p, hpc, by rw [hpd]; rfl⟩

lemma firstInlineData_eq_none (r : GenerateContentResponse)
    (h : ¬ hasInlineImage r) : firstInlineData r = none := by
  cases hfd : firstInlineData r with
  | none => rfl
  | some d =>
    exact absurd ((hasInlineImage_iff r).mpr (by rw [hfd]; rfl)) h

/-- C9: for every gateway response, (1) if some candidate part carries
inline image data, `handleApiResponse` returns the first such image as a
data URL; (2) otherwise, if the first candidate's finish reason is present
(non-empty — JS truthiness) and is not "STOP", it fails with an error
reporting that finish reason; (3) otherwise it fails with the response's
(trimmed) text as the message, or the generic no-image message when that
text is empty or absent. -/
theorem C9_api_response_cascade (r : GenerateContentResponse) :
    (hasInlineImage r →
      ∃ d, firstInlineData r = some d ∧
        handleApiResponse r = Except.ok (dataUrlOf d)) ∧
    (¬ hasInlineImage r → ∀ reason, firstFinishReason r = some reason →
      reason ≠ "" → reason ≠ "STOP" →
      handleApiResponse r =
        Except.error ("Image generation stopped. Reason: " ++ reason)) ∧
    (¬ hasInlineImage r →
      (jsTruthy (firstFinishReason r) = false ∨ firstFinishReason r = some "STOP") →
      handleApiResponse r =
        Except.error (if jsTrim (r.text.getD "") = "" then "AI did not return an image."
          else jsTrim (r.text.getD ""))) := by
  refine ⟨?_, ?_, ?_⟩
  · intro h
    obtain ⟨d, hd⟩ := Option.isSome_iff_exists.mp ((hasInlineImage_iff r).mp h)
    exact ⟨d, hd, by unfold handleApiResponse; rw [hd]⟩
  · intro h reason hfr hne hnstop
    have hnone := firstInlineData_eq_none r h
    unfold handleApiResponse
    rw [hnone, hfr]
    have hcond : (jsTruthy (some reason) && (some reason != some "STOP")) = true := by
      simp [jsTruthy, hne, hnstop]
    rw [hcond]
    simp
  · intro h hside
    have hnone := firstInlineData_eq_none r h
    unfold handleApiResponse
    rw [hnone]
    have hcond : (jsTruthy (firstFinishReason r) &&
        (firstFinishReason r != some "STOP")) = false := by
      rcases hside with hfalse | hstop
      · simp [hfalse]
      · simp [hstop, jsTruthy]
    rw [hcond]
    simp

/-- Witness for C9 at three concrete responses: one with inline image
data, one with a "SAFETY" finish reason and no image, one with a "STOP"
finish reason and whitespace-only text. -/
theorem C9_api_response_cascade_witness :
    (hasInlineImage rInlineEx ∧
      ∃ d, firstInlineData rInlineEx = some d ∧
        handleApiResponse rInlineEx = Except.ok (dataUrlOf d)) ∧
    (¬ hasInlineImage rSafetyEx ∧
      firstFinishReason rSafetyEx = some "SAFETY" ∧
      handleApiResponse rSafetyEx =
        Except.error "Image generation stopped. Reason: SAFETY") ∧
    (¬ hasInlineImage rTextEx ∧
      firstFinishReason rTextEx = some "STOP" ∧
      handleApiResponse rTextEx = Except.error "AI did not return an image.") :=
  ⟨⟨by unfold hasInlineImage; decide,
      (C9_api_response_cascade rInlineEx).1 (by unfold hasInlineImage; decide)⟩,
    ⟨by unfold hasInlineImage; decide, by decide,
      (C9_api_response_cascade rSafetyEx).2.1 (by unfold hasInlineImage; decide)
        "SAFETY" (by decide) (by decide) (by decide)⟩,
    ⟨by unfold hasInlineImage; decide, by decide, by
      have h3 := (C9_api_response_cascade rTextEx).2.2
        (by unfold hasInlineImage; decide) (Or.inr (by decide))
      have hred : (if jsTrim (rTextEx.text.getD "") = "" then "AI did not return an image."
          else jsTrim (rTextEx.text.getD "")) = "AI did not return an image." := by decide
      rw [h3, hred]⟩⟩

end WearFit
